import Mathlib

/-!
Verification of the cmip6-cookbook repository: a shallow embedding of the
notebook src/notebooks/example-workflows/esgf2-arm-comparison.ipynb and of
the site configuration src/_config.yml, with theorems settling the spec
claims about them.

The notebook is a linear script over external libraries; numeric values are
embedded as rationals, timestamps as calendar dates, datasets as association
lists from coordinates to values, and the script itself as a concrete list
of statements carrying the attributes visible in the source text.
-/

namespace Cmip6Cookbook

/-! ### Longitude remapping

The notebook normalizes the model longitude coordinate with
  esgf_ds[lon_coord] = (esgf_ds[lon_coord] + 180) % 360 - 180
Python float percent is floor-based: a % b = a - b * floor (a / b).
-/

/-- Python floor-based modulus on rationals: a - b * floor (a / b), the
semantics of the percent operator applied to the longitude array. -/
def pymod (a b : ℚ) : ℚ := a - b * (⌊a / b⌋ : ℤ)

/-- The remapping applied to each longitude value by the statement
  (esgf_ds[lon_coord] + 180) % 360 - 180. -/
def remapLon (v : ℚ) : ℚ := pymod (v + 180) 360 - 180

theorem pymod_eq_fract (a b : ℚ) (hb : b ≠ 0) :
    pymod a b = b * Int.fract (a / b) := by
  unfold pymod
  rw [Int.fract]
  field_simp

theorem remapLon_eq_sub_floor (v : ℚ) :
    remapLon v = v - 360 * (⌊(v + 180) / 360⌋ : ℤ) := by
  unfold remapLon pymod
  ring

/-- C1: for every longitude value v in the interval from 0 inclusive to 360
exclusive, the remapping (v + 180) % 360 - 180 computed by the notebook lies
in the interval from -180 inclusive to 180 exclusive and differs from v by an
integer multiple of 360, hence denotes the same physical angle. -/
theorem remapLon_correct (v : ℚ) (h0 : 0 ≤ v) (h1 : v < 360) :
    -180 ≤ remapLon v ∧ remapLon v < 180 ∧
      ∃ k : ℤ, v - remapLon v = 360 * (k : ℚ) := by
  have hfr0 : (0 : ℚ) ≤ Int.fract ((v + 180) / 360) := Int.fract_nonneg _
  have hfr1 : Int.fract ((v + 180) / 360) < 1 := Int.fract_lt_one _
  have hm : pymod (v + 180) 360 = 360 * Int.fract ((v + 180) / 360) :=
    pymod_eq_fract (v + 180) 360 (by norm_num)
  refine ⟨?_, ?_, ⟨⌊(v + 180) / 360⌋, ?_⟩⟩
  · unfold remapLon
    rw [hm]
    nlinarith
  · unfold remapLon
    rw [hm]
    nlinarith
  · rw [remapLon_eq_sub_floor]
    ring

/-- Concrete instance of C1: the longitude 250 is remapped to -110, which
lies in the target interval and differs from 250 by exactly one turn. -/
theorem remapLon_correct_witness :
    -180 ≤ remapLon 250 ∧ remapLon 250 < 180 ∧
      ∃ k : ℤ, (250 : ℚ) - remapLon 250 = 360 * (k : ℚ) :=
  remapLon_correct 250 (by norm_num) (by norm_num)

/-! ### Unit conversion

The notebook converts the computed model temperature series with
  cmip6_monthly_mean_temperature.metpy.convert_units(degC).
The series carries a unit attribute; the pint registry converts between
kelvin and degrees Celsius by the affine offset 273.15 and leaves a series
already in the target unit unchanged.
-/

/-- The two temperature units appearing in the workflow: the model output is
in kelvin, the observational convention is degrees Celsius. -/
inductive TempUnit : Type
  | kelvin : TempUnit
  | degC : TempUnit
deriving DecidableEq, Repr

/-- Conversion of a single value between temperature units, as performed by
the units registry: kelvin and Celsius differ by the offset 273.15. -/
def convertValue : TempUnit → TempUnit → ℚ → ℚ
  | .kelvin, .kelvin, v => v
  | .kelvin, .degC, v => v - 27315 / 100
  | .degC, .kelvin, v => v + 27315 / 100
  | .degC, .degC, v => v

/-- A quantified temperature series: the data values together with the unit
attribute attached by metpy.quantify(). -/
structure TempSeries where
  values : List ℚ
  unit : TempUnit
deriving DecidableEq, Repr

/-- The convert_units method: convert every value from the current unit of
the series to the target unit and record the target unit. -/
def convert_units (target : TempUnit) (s : TempSeries) : TempSeries :=
  { values := s.values.map (convertValue s.unit target), unit := target }

/-- C3: converting a kelvin series to degrees Celsius subtracts 273.15 from
every value elementwise, and convert_units to degrees Celsius is a no-op on
a series already in degrees Celsius, hence idempotent. -/
theorem convert_units_degC_correct :
    (∀ vs : List ℚ, convert_units .degC ⟨vs, .kelvin⟩ =
        ⟨vs.map (fun v => v - 27315 / 100), .degC⟩) ∧
    (∀ vs : List ℚ, convert_units .degC ⟨vs, .degC⟩ = ⟨vs, .degC⟩) ∧
    (∀ s : TempSeries, convert_units .degC (convert_units .degC s) =
        convert_units .degC s) := by
  refine ⟨fun vs => rfl, fun vs => ?_, fun s => ?_⟩
  · simp only [convert_units, convertValue, TempSeries.mk.injEq]
    exact ⟨List.map_id vs, trivial⟩
  · simp only [convert_units, convertValue, TempSeries.mk.injEq]
    exact ⟨List.map_id _, trivial⟩

/-! ### Sorting by the remapped longitude coordinate

The statement esgf_ds = esgf_ds.sortby(lon_coord) stably reorders the
dataset along the longitude axis in ascending coordinate order.  The dataset
slice along that axis is embedded as a list of pairs of the coordinate value
and the data carried at it.
-/

/-- The sortby(lon_coord) operation: a stable sort of the dataset entries by
the longitude coordinate value. -/
def sortby {α : Type} (l : List (ℚ × α)) : List (ℚ × α) :=
  l.mergeSort (fun p q => p.1 ≤ q.1)

/-- C5: after sortby on the remapped longitude coordinate, the longitude
coordinate sequence of the result is non-decreasing. -/
theorem sortby_lon_sorted {α : Type} (l : List (ℚ × α)) :
    ((sortby l).map Prod.fst).Sorted (· ≤ ·) := by
  have h := @List.sorted_mergeSort (ℚ × α)
    (fun p q => decide (p.1 ≤ q.1))
    (fun a b c h1 h2 => by
      simp only [decide_eq_true_eq] at *
      exact le_trans h1 h2)
    (fun a b => by
      simp only [Bool.or_eq_true, decide_eq_true_eq]
      exact le_total a.1 b.1)
    l
  unfold sortby
  rw [List.Sorted, List.pairwise_map]
  exact h.imp (fun hab => of_decide_eq_true hab)

/-! ### Timestamps and the time-range selection

The notebook restricts the model series to the observation period with
  cmip6_nearest.sel(time=slice(start_date, end_date))
where start_date and end_date are the calendar dates 2013-01-01 and
2013-12-31.  A label-based slice on a monotonically ordered time index keeps
the contiguous run of timestamps between the two labels, both ends
inclusive: the leading timestamps strictly before the start label are
dropped and the run is cut at the last timestamp not after the end label.
-/

/-- A calendar date, the granularity at which the notebook addresses time. -/
structure Date where
  year : Nat
  month : Nat
  day : Nat
deriving DecidableEq, Repr

/-- Numeric key realizing the chronological order of calendar dates. -/
def Date.key (d : Date) : Nat := d.year * 10000 + d.month * 100 + d.day

/-- The start of the observation period requested from the ARM archive and
used as the left end of the time slice. -/
def start_date : Date := ⟨2013, 1, 1⟩

/-- The end of the observation period requested from the ARM archive and
used as the right end of the time slice. -/
def end_date : Date := ⟨2013, 12, 31⟩

/-- The sel(time=slice(s, e)) operation on a time-ordered series: drop the
leading entries dated strictly before s, then keep entries while they are
dated no later than e. -/
def sliceTime {α : Type} (s e : Date) (l : List (Date × α)) : List (Date × α) :=
  (l.dropWhile (fun p => p.1.key < s.key)).takeWhile (fun p => p.1.key ≤ e.key)

theorem mem_dropWhile_lowerBound {α : Type} (s : Date) :
    ∀ (l : List (Date × α)),
      l.Pairwise (fun p q => p.1.key ≤ q.1.key) →
      ∀ p ∈ l.dropWhile (fun p => p.1.key < s.key), s.key ≤ p.1.key := by
  intro l
  induction l with
  | nil => intro _ p hp; simp [List.dropWhile] at hp
  | cons a l ih =>
    intro hpw p hp
    rw [List.dropWhile_cons] at hp
    rw [List.pairwise_cons] at hpw
    split at hp
    · exact ih hpw.2 p hp
    · next hcond =>
      have ha : ¬ a.1.key < s.key := by
        intro hlt
        exact hcond (by simpa using hlt)
      rcases List.mem_cons.mp hp with h | h
      · subst h; omega
      · have := hpw.1 p h
        omega

/-- C4: on a chronologically sorted series, after selecting the time slice
from 2013-01-01 to 2013-12-31 every timestamp remaining in the result lies
within that range, with both bounds inclusive. -/
theorem sliceTime_in_range {α : Type} (l : List (Date × α))
    (hsorted : l.Pairwise (fun p q => p.1.key ≤ q.1.key)) :
    ∀ p ∈ sliceTime start_date end_date l,
      start_date.key ≤ p.1.key ∧ p.1.key ≤ end_date.key := by
  intro p hp
  constructor
  · have hmem : p ∈ l.dropWhile (fun p => p.1.key < start_date.key) :=
      (List.takeWhile_sublist _).subset hp
    exact mem_dropWhile_lowerBound start_date l hsorted p hmem
  · have := List.mem_takeWhile_imp hp
    simpa using this

/-- Concrete instance of C4: in a three-entry sorted series spanning
2012-12-31 to 2014-01-01, the entry dated 2013-05-01 survives the slice and
its timestamp lies between the two bounds. -/
theorem sliceTime_in_range_witness :
    start_date.key ≤ (Date.mk 2013 5 1).key ∧
      (Date.mk 2013 5 1).key ≤ end_date.key :=
  sliceTime_in_range
    [(⟨2012, 12, 31⟩, (0 : ℚ)), (⟨2013, 5, 1⟩, 17), (⟨2014, 1, 1⟩, 3)]
    (by decide) (⟨2013, 5, 1⟩, 17) (by decide)

/-! ### Monthly resampling

The notebook aggregates the sorted observational series with
  arm_ds.temp_mean.resample(time=1M).mean().compute().
Calendar-aware monthly resampling builds one bin per calendar month from the
month of the earliest timestamp through the month of the latest timestamp
and aggregates the values falling in each bin with the mean; a bin with no
data yields a missing value (none) rather than being dropped.
-/

/-- Linear index of the calendar month a date falls in. -/
def Date.monthIdx (d : Date) : Nat := d.year * 12 + (d.month - 1)

/-- Mean aggregation of a bin: none on an empty bin (a missing value),
otherwise the arithmetic mean of the values. -/
def meanQ (xs : List ℚ) : Option ℚ :=
  if xs.isEmpty then none else some (xs.sum / xs.length)

/-- The consecutive run of month bins from month lo through month hi. -/
def monthBins (lo hi : Nat) : List Nat := List.range' lo (hi + 1 - lo)

/-- Month of the earliest timestamp of a series: the low end of the span
covered by the resampling bins. -/
def spanLo {α : Type} : List (Date × α) → Nat
  | [] => 0
  | p :: rest => (rest.map (fun q => q.1.monthIdx)).foldr min p.1.monthIdx

/-- Month of the latest timestamp of a series: the high end of the span
covered by the resampling bins. -/
def spanHi {α : Type} : List (Date × α) → Nat
  | [] => 0
  | p :: rest => (rest.map (fun q => q.1.monthIdx)).foldr max p.1.monthIdx

/-- The resample(time=1M).mean() operation: one mean-aggregated value per
calendar month bin from the earliest to the latest month of the series. -/
def resampleMonthlyMean : List (Date × ℚ) → List (Nat × Option ℚ)
  | [] => []
  | p :: rest =>
    (monthBins (spanLo (p :: rest)) (spanHi (p :: rest))).map
      (fun m => (m, meanQ (((p :: rest).filter
        (fun q => q.1.monthIdx = m)).map Prod.snd)))

theorem foldr_min_le_init (xs : List Nat) (a : Nat) : xs.foldr min a ≤ a := by
  induction xs with
  | nil => exact le_refl a
  | cons x xs ih => exact le_trans (min_le_right x _) ih

theorem foldr_min_le_mem {xs : List Nat} {x : Nat} (hx : x ∈ xs) (a : Nat) :
    xs.foldr min a ≤ x := by
  induction xs with
  | nil => cases hx
  | cons y ys ih =>
    rcases List.mem_cons.mp hx with h | h
    · subst h; exact min_le_left _ _
    · exact le_trans (min_le_right _ _) (ih h)

theorem init_le_foldr_max (xs : List Nat) (a : Nat) : a ≤ xs.foldr max a := by
  induction xs with
  | nil => exact le_refl a
  | cons x xs ih => exact le_trans ih (le_max_right x _)

theorem mem_le_foldr_max {xs : List Nat} {x : Nat} (hx : x ∈ xs) (a : Nat) :
    x ≤ xs.foldr max a := by
  induction xs with
  | nil => cases hx
  | cons y ys ih =>
    rcases List.mem_cons.mp hx with h | h
    · subst h; exact le_max_left _ _
    · exact le_trans (ih h) (le_max_right _ _)

theorem spanLo_le_monthIdx {α : Type} (l : List (Date × α)) :
    ∀ p ∈ l, spanLo l ≤ p.1.monthIdx := by
  match l with
  | [] => intro p hp; cases hp
  | q :: rest =>
    intro p hp
    rcases List.mem_cons.mp hp with h | h
    · subst h; exact foldr_min_le_init _ _
    · show (rest.map (fun q => q.1.monthIdx)).foldr min q.1.monthIdx ≤ p.1.monthIdx
      exact @foldr_min_le_mem (rest.map (fun q => q.1.monthIdx)) p.1.monthIdx
        (List.mem_map_of_mem (fun q => q.1.monthIdx) h) q.1.monthIdx

theorem monthIdx_le_spanHi {α : Type} (l : List (Date × α)) :
    ∀ p ∈ l, p.1.monthIdx ≤ spanHi l := by
  match l with
  | [] => intro p hp; cases hp
  | q :: rest =>
    intro p hp
    rcases List.mem_cons.mp hp with h | h
    · subst h; exact init_le_foldr_max _ _
    · show p.1.monthIdx ≤ (rest.map (fun q => q.1.monthIdx)).foldr max q.1.monthIdx
      exact @mem_le_foldr_max (rest.map (fun q => q.1.monthIdx)) p.1.monthIdx
        (List.mem_map_of_mem (fun q => q.1.monthIdx) h) q.1.monthIdx

theorem spanLo_le_spanHi {α : Type} (l : List (Date × α)) (h : l ≠ []) :
    spanLo l ≤ spanHi l := by
  match l with
  | [] => exact absurd rfl h
  | q :: rest =>
    exact le_trans (foldr_min_le_init _ _) (init_le_foldr_max _ _)

theorem mem_monthBins {lo hi m : Nat} (hle : lo ≤ hi) :
    m ∈ monthBins lo hi ↔ lo ≤ m ∧ m ≤ hi := by
  unfold monthBins
  rw [List.mem_range'_1]
  omega

theorem nodup_monthBins (lo hi : Nat) : (monthBins lo hi).Nodup :=
  List.nodup_range' _ _

/-- C2: for a non-empty time-indexed series, monthly resampling with mean
yields exactly one aggregate entry per calendar month of the covered span:
the months of the output are pairwise distinct, a month appears in the
output exactly when it lies between the earliest and the latest month of the
input, and every input timestamp falls inside that span. -/
theorem resampleMonthlyMean_covers (l : List (Date × ℚ)) (hne : l ≠ []) :
    ((resampleMonthlyMean l).map Prod.fst).Nodup ∧
    (∀ m : Nat, m ∈ (resampleMonthlyMean l).map Prod.fst ↔
        spanLo l ≤ m ∧ m ≤ spanHi l) ∧
    (∀ p ∈ l, spanLo l ≤ p.1.monthIdx ∧ p.1.monthIdx ≤ spanHi l) := by
  match l with
  | [] => exact absurd rfl hne
  | q :: rest =>
    have hbins : (resampleMonthlyMean (q :: rest)).map Prod.fst =
        monthBins (spanLo (q :: rest)) (spanHi (q :: rest)) := by
      unfold resampleMonthlyMean
      rw [List.map_map]
      exact List.map_id _
    refine ⟨?_, ?_, ?_⟩
    · rw [hbins]; exact nodup_monthBins _ _
    · intro m
      rw [hbins]
      exact mem_monthBins (spanLo_le_spanHi _ hne)
    · intro p hp
      exact ⟨spanLo_le_monthIdx _ p hp, monthIdx_le_spanHi _ p hp⟩

/-- Concrete instance of C2: a two-entry series with data in January and
March 2013 resamples to distinct month bins, and the skipped middle month
February 2013 (linear index 24157) is present in the output months. -/
theorem resampleMonthlyMean_covers_witness :
    ((resampleMonthlyMean
        [(⟨2013, 1, 15⟩, 5), (⟨2013, 3, 10⟩, 7)]).map Prod.fst).Nodup ∧
    (24157 ∈ (resampleMonthlyMean
        [(⟨2013, 1, 15⟩, 5), (⟨2013, 3, 10⟩, 7)]).map Prod.fst ↔
      spanLo [((⟨2013, 1, 15⟩ : Date), (5 : ℚ)), (⟨2013, 3, 10⟩, 7)] ≤ 24157 ∧
      24157 ≤ spanHi [((⟨2013, 1, 15⟩ : Date), (5 : ℚ)), (⟨2013, 3, 10⟩, 7)]) := by
  have h := resampleMonthlyMean_covers
    [(⟨2013, 1, 15⟩, 5), (⟨2013, 3, 10⟩, 7)] (by decide)
  exact ⟨h.1, h.2.1 24157⟩

/-! ### The notebook as a linear script

The notebook is a single top-to-bottom pass of statements with no loops and
no exception handling.  Each statement is embedded with the attributes
readable off its source text: which dataset it touches, whether it is a
blocking compute trigger (an explicit .compute() call), whether it performs
a resample, which network operations it issues, whether it is wrapped in an
exception handler, and whether it opens a dataset.
-/

/-- The two datasets constructed by the notebook: the ESGF-hosted CMIP6
model output and the ARM observational data. -/
inductive DatasetId : Type
  | esgf : DatasetId
  | arm : DatasetId
deriving DecidableEq, Repr

/-- The kinds of network traffic issued by the notebook: a federated-search
query against the ESGF search endpoint, a data-retrieval download from the
ARM archive, and OPeNDAP remote array access to the model files. -/
inductive NetOp : Type
  | esgfSearch : NetOp
  | armDownload : NetOp
  | opendap : NetOp
deriving DecidableEq, Repr

/-- One top-level statement of the notebook, with the attributes visible in
its source text. -/
structure Stmt where
  text : String
  dataset : Option DatasetId
  blockingCompute : Bool
  isResample : Bool
  netOps : List NetOp
  hasHandler : Bool
  opensDataset : Bool
deriving DecidableEq, Repr

/-- The notebook of the repository, statement by statement in source order.
Every hasHandler field is false because the source contains no try or
except anywhere; the two .compute() calls are the only blocking statements;
the two .search() calls each issue a query to the ESGF search endpoint. -/
def notebookScript : List Stmt :=
  [⟨"imports and setup", none, false, false, [], false, false⟩,
   ⟨"client = Client()", none, false, false, [], false, false⟩,
   ⟨"conn = SearchConnection(esgf-node.llnl.gov/esg-search, distrib=False)",
     none, false, false, [], false, false⟩,
   ⟨"ctx = conn.new_context(project=CMIP6, table_id=Amon, ...)",
     none, false, false, [], false, false⟩,
   ⟨"result = ctx.search()[1]", none, false, false, [.esgfSearch], false, false⟩,
   ⟨"files = result.file_context().search()",
     none, false, false, [.esgfSearch], false, false⟩,
   ⟨"opendap_urls = [file.opendap_url for file in files]",
     none, false, false, [], false, false⟩,
   ⟨"esgf_ds = xr.open_mfdataset(opendap_urls, combine=by_coords, chunks)",
     some .esgf, false, false, [.opendap], false, true⟩,
   ⟨"lon_coord = esgf_ds.cf[X].name", some .esgf, false, false, [], false, false⟩,
   ⟨"esgf_ds[lon_coord] = (esgf_ds[lon_coord] + 180) % 360 - 180",
     some .esgf, false, false, [], false, false⟩,
   ⟨"esgf_ds = esgf_ds.sortby(lon_coord)", some .esgf, false, false, [], false, false⟩,
   ⟨"arm_username = os.getenv(ARM_USERNAME)", none, false, false, [], false, false⟩,
   ⟨"arm_password = os.getenv(ARM_PASSWORD)", none, false, false, [], false, false⟩,
   ⟨"datastream = sgpmetE13.b1", none, false, false, [], false, false⟩,
   ⟨"start_date = 2013-01-01", none, false, false, [], false, false⟩,
   ⟨"end_date = 2013-12-31", none, false, false, [], false, false⟩,
   ⟨"files = act.discovery.download_data(arm_username, arm_password, datastream, start_date, end_date)",
     none, false, false, [.armDownload], false, false⟩,
   ⟨"arm_ds = xr.open_mfdataset(files, combine=nested, concat_dim=time, chunks)",
     some .arm, false, false, [], false, true⟩,
   ⟨"lat = arm_ds.lat.values[0]", some .arm, false, false, [], false, false⟩,
   ⟨"lon = arm_ds.lon.values[0]", some .arm, false, false, [], false, false⟩,
   ⟨"cmip6_nearest = esgf_ds.cf.sel(lat=lat, lon=lon, method=nearest)",
     some .esgf, false, false, [], false, false⟩,
   ⟨"cmip6_nearest[time] = cmip6_nearest.indexes[time].to_datetimeindex()",
     some .esgf, false, false, [], false, false⟩,
   ⟨"cmip6_nearest = cmip6_nearest.sel(time=slice(start_date, end_date))",
     some .esgf, false, false, [], false, false⟩,
   ⟨"arm_ds = arm_ds.sortby(time)", some .arm, false, false, [], false, false⟩,
   ⟨"sgp_monthly_mean_temperature = arm_ds.temp_mean.resample(time=1M).mean().compute()",
     some .arm, true, true, [], false, false⟩,
   ⟨"cmip6_monthly_mean_temperature = cmip6_nearest.tas.compute().metpy.quantify()",
     some .esgf, true, false, [.opendap], false, false⟩,
   ⟨"cmip6_monthly_mean_temperature = cmip6_monthly_mean_temperature.metpy.convert_units(degC)",
     some .esgf, false, false, [], false, false⟩,
   ⟨"esgf_plot = cmip6_monthly_mean_temperature.hvplot(label=...)",
     some .esgf, false, false, [], false, false⟩,
   ⟨"arm_plot = sgp_monthly_mean_temperature.hvplot(label=...)",
     some .arm, false, false, [], false, false⟩,
   ⟨"esgf_plot * arm_plot", none, false, false, [], false, false⟩]

/-- The statements of a script that are blocking compute triggers, namely
the explicit .compute() calls. -/
def blockingComputeStmts (sc : List Stmt) : List Stmt :=
  sc.filter (fun s => s.blockingCompute)

/-- Claim C6 as stated: two blocking compute triggers and, for each of the
two datasets, a compute trigger that is a monthly-resampling computation. -/
def claimC6AsStated (sc : List Stmt) : Prop :=
  (blockingComputeStmts sc).length = 2 ∧
  (∃ s ∈ sc, s.dataset = some DatasetId.arm ∧ s.blockingCompute = true ∧
    s.isResample = true) ∧
  (∃ s ∈ sc, s.dataset = some DatasetId.esgf ∧ s.blockingCompute = true ∧
    s.isResample = true)

/-- Counterexample to C6 as stated: the notebook has no statement that both
computes and resamples the CMIP6 dataset, because its second compute trigger
is cmip6_nearest.tas.compute(), which involves no resample; the model data
is already monthly and only the ARM series is resampled. -/
theorem claimC6_false : ¬ claimC6AsStated notebookScript := by
  unfold claimC6AsStated blockingComputeStmts
  decide

/-- C6 amended: the notebook issues exactly two blocking compute triggers,
the first being the ARM monthly-resampling computation and the second the
CMIP6 temperature-series computation, which is not a resample; the single
resample in the script is the ARM one, and every other statement is
non-blocking. -/
theorem notebook_two_compute_triggers :
    (blockingComputeStmts notebookScript).map
        (fun s => (s.dataset, s.isResample)) =
      [(some DatasetId.arm, true), (some DatasetId.esgf, false)] ∧
    (notebookScript.filter (fun s => s.isResample)).length = 1 := by
  constructor <;> rfl

/-- The network operations issued by a script, in program order. -/
def netTrace (sc : List Stmt) : List NetOp :=
  (sc.map (fun s => s.netOps)).flatten

/-- How many federated-search queries against the ESGF search endpoint a
script issues. -/
def searchQueryCount (sc : List Stmt) : Nat :=
  (netTrace sc).count NetOp.esgfSearch

/-- Counterexample to C9 as stated: the notebook does not issue exactly one
federated-search query, because both ctx.search() and
result.file_context().search() query the ESGF search endpoint. -/
theorem claimC9_false : ¬ searchQueryCount notebookScript = 1 := by
  unfold searchQueryCount netTrace
  decide

/-- C9 amended: the notebook issues exactly two federated-search queries
against the ESGF search endpoint, the dataset search and the file search;
all its other network traffic is the ARM data-retrieval download and
OPeNDAP remote array access to the model files, as the full network trace
shows. -/
theorem notebook_network_trace :
    netTrace notebookScript =
      [NetOp.esgfSearch, NetOp.esgfSearch, NetOp.opendap,
       NetOp.armDownload, NetOp.opendap] ∧
    searchQueryCount notebookScript = 2 := by
  constructor <;> rfl

/-! ### Failure propagation

A run of the script executes its statements in order.  An external operation
may fail with the underlying library signal; the oracle below assigns to
each statement index the failure it raises during the run, if any (a failed
search, a failed download, a missing ARM_USERNAME or ARM_PASSWORD
credential surfacing in download_data, a shape mismatch during alignment).
A raised failure is caught only by an enclosing handler; otherwise it
aborts the run and surfaces unchanged.
-/

/-- Sequential execution of a script from a given statement index: the
first failing statement not wrapped in a handler aborts the run with its
index and its native failure signal. -/
def runScript (oracle : Nat → Option String) : Nat → List Stmt → Except (Nat × String) Unit
  | _, [] => Except.ok ()
  | i, s :: rest =>
    match oracle i with
    | some e =>
      if s.hasHandler then runScript oracle (i + 1) rest
      else Except.error (i, e)
    | none => runScript oracle (i + 1) rest

theorem runScript_error_of_no_handler (oracle : Nat → Option String) (e : String) :
    ∀ (l : List Stmt) (i k : Nat), (∀ s ∈ l, s.hasHandler = false) →
      k < l.length → oracle (i + k) = some e →
      (∀ j, j < k → oracle (i + j) = none) →
      runScript oracle i l = Except.error (i + k, e) := by
  intro l
  induction l with
  | nil =>
    intro i k _ hk _ _
    simp at hk
  | cons s rest ih =>
    intro i k hnh hk hfail hbefore
    cases k with
    | zero =>
      have hi : oracle i = some e := by simpa using hfail
      have hs : s.hasHandler = false := hnh s (List.mem_cons_self s rest)
      show runScript oracle i (s :: rest) = Except.error (i + 0, e)
      unfold runScript
      rw [hi, hs]
      simp
    | succ k =>
      have hi : oracle i = none := by
        have := hbefore 0 (Nat.succ_pos k)
        simpa using this
      have hrest : ∀ t ∈ rest, t.hasHandler = false :=
        fun t ht => hnh t (List.mem_cons_of_mem s ht)
      have hk2 : k < rest.length := by simpa using hk
      have hfail2 : oracle ((i + 1) + k) = some e := by
        have : i + (k + 1) = (i + 1) + k := by omega
        rw [this] at hfail
        exact hfail
      have hbefore2 : ∀ j, j < k → oracle ((i + 1) + j) = none := by
        intro j hj
        have : (i + 1) + j = i + (j + 1) := by omega
        rw [this]
        exact hbefore (j + 1) (by omega)
      have hres := ih (i + 1) k hrest hk2 hfail2 hbefore2
      have heq : i + (k + 1) = (i + 1) + k := by omega
      show runScript oracle i (s :: rest) = Except.error (i + (k + 1), e)
      rw [heq]
      unfold runScript
      rw [hi]
      exact hres

/-- C7: no statement of the notebook is wrapped in an exception handler,
and whichever external operation fails first during a run, the run
terminates with exactly that statement index and that native failure
signal, with no retry or fallback. -/
theorem notebook_failures_propagate (oracle : Nat → Option String)
    (k : Nat) (e : String) (hk : k < notebookScript.length)
    (hfail : oracle k = some e) (hbefore : ∀ j, j < k → oracle j = none) :
    (∀ s ∈ notebookScript, s.hasHandler = false) ∧
    runScript oracle 0 notebookScript = Except.error (k, e) := by
  constructor
  · decide
  · have := runScript_error_of_no_handler oracle e notebookScript 0 k
      (by decide) hk (by simpa using hfail) (by simpa using hbefore)
    simpa using this

/-- Concrete instance of C7: a run in which the ARM download at statement
index 16 raises a connection error terminates with exactly that failure. -/
theorem notebook_failures_propagate_witness :
    runScript (fun j => if j = 16 then some "ConnectionError" else none) 0
        notebookScript = Except.error (16, "ConnectionError") :=
  (notebook_failures_propagate
    (fun j => if j = 16 then some "ConnectionError" else none) 16
    "ConnectionError" (by decide) (by decide) (by decide)).2

/-! ### The ESGF search-result selection

The statement result = ctx.search()[1] takes the element at index 1 of the
search-result list; Python list indexing raises an index error when the
list is shorter than two elements.
-/

/-- The failure signal of the result selection: the index error raised by
list subscription on a too-short list. -/
inductive ScriptError : Type
  | indexError : ScriptError
deriving DecidableEq, Repr

/-- The selection ctx.search()[1]: the element at index 1 of the result
list when it exists, an index error otherwise. -/
def selectSearchResult {α : Type} (results : List α) : Except ScriptError α :=
  if h : 1 < results.length then Except.ok (results.get ⟨1, h⟩)
  else Except.error ScriptError.indexError

/-- C10: the search stage takes the result at index 1, the second element,
so a search returning fewer than two results aborts with an index error
while a search returning at least two yields the second element; and no
statement up to and including the search opens a dataset, so the abort
happens before any dataset is opened. -/
theorem search_result_index_one {α : Type} (results : List α) :
    (results.length < 2 →
      selectSearchResult results = Except.error ScriptError.indexError) ∧
    (∀ h : 1 < results.length,
      selectSearchResult results = Except.ok (results.get ⟨1, h⟩)) ∧
    ((notebookScript.take 5).filter (fun s => s.opensDataset)).length = 0 := by
  refine ⟨?_, ?_, ?_⟩
  · intro h
    unfold selectSearchResult
    rw [dif_neg (by omega)]
  · intro h
    unfold selectSearchResult
    rw [dif_pos h]
  · decide

/-- Concrete instance of C10: a one-element result list aborts with an
index error, and a three-element result list yields its second element. -/
theorem search_result_index_one_witness :
    selectSearchResult ([5] : List Nat) = Except.error ScriptError.indexError ∧
    selectSearchResult ([10, 20, 30] : List Nat) = Except.ok 20 :=
  ⟨(search_result_index_one [5]).1 (by norm_num),
   (search_result_index_one [10, 20, 30]).2.1 (by norm_num)⟩

/-! ### The site configuration

The file src/_config.yml configures the documentation build.  The fields of
its execute and sphinx sections that govern notebook execution are embedded
verbatim.
-/

/-- The execute section of the site configuration. -/
structure ExecuteSettings where
  execute_notebooks : String
  allow_errors : Bool
deriving DecidableEq, Repr

/-- The sphinx configuration entries of the site configuration relevant to
notebook execution, plus the theme recorded alongside them. -/
structure SphinxSettings where
  nb_execution_raise_on_error : Bool
  html_theme : String
deriving DecidableEq, Repr

/-- The site configuration as a whole: book metadata together with the
execution policy sections. -/
structure BookConfig where
  title : String
  author : String
  execute : ExecuteSettings
  sphinx : SphinxSettings
deriving DecidableEq, Repr

/-- The contents of src/_config.yml. -/
def siteConfig : BookConfig :=
  ⟨"CMIP6 Cookbook",
   "Ryan Abernathey, Henri Drake, Robert Ford",
   ⟨"force", false⟩,
   ⟨true, "sphinx_pythia_theme"⟩⟩

/-- C8: the site configuration forces re-execution of every notebook at
build time, does not allow errors in cells, and asks sphinx to raise on any
notebook execution error, failing the documentation build instead of
skipping it. -/
theorem siteConfig_error_policy :
    siteConfig.execute.execute_notebooks = "force" ∧
    siteConfig.execute.allow_errors = false ∧
    siteConfig.sphinx.nb_execution_raise_on_error = true :=
  ⟨rfl, rfl, rfl⟩

end Cmip6Cookbook
